import Mathlib

/-!
Verification of the trend collection-and-persistence pipeline
(`utils.py`, `collectors.py`, `database.py`, `main.py`) against its
natural-language specification.

Shallow embedding conventions:
* Python strings are Lean `String`; `str.strip()` is `pyStrip` (ASCII
  whitespace; the Unicode classes Python also strips are abstracted),
  slicing `s[:n]` is `pyTake n s`.
* Python floats used for engagement scores, delays and timestamps are
  modelled as exact rationals `ℚ` (the values involved are small and the
  comparisons in the code are exact at these magnitudes).
* `None`-able parameters are `Option`; Python truthiness of a string is
  "present and non-empty".
* Wall-clock time is an explicit `now : ℚ` parameter; `time.sleep(d)`
  followed by `time.time()` is modelled as `now + d`.
* Fallible operations return `Except`; an uncaught Python exception is the
  `.error` constructor.
-/

namespace TrendBot

/-- ASCII whitespace as stripped by Python's `str.strip()` (space, tab,
newline, carriage return, vertical tab, form feed). -/
def pyIsSpace (c : Char) : Bool :=
  c = ' ' || c = '\t' || c = '\n' || c = '\r' || c = Char.ofNat 11 || c = Char.ofNat 12

/-- Python `s.strip()`: drop whitespace from both ends. -/
def pyStrip (s : String) : String :=
  String.mk (((s.data.dropWhile pyIsSpace).reverse.dropWhile pyIsSpace).reverse)

/-- Python slicing `s[:n]` for `n ≥ 0`. -/
def pyTake (n : Nat) (s : String) : String :=
  String.mk (s.data.take n)

/-! ### utils.py — `RetryWithBackoff`

The decorator wraps an operation; each invocation of the wrapped function
runs a `for attempt in range(max_attempts)` loop.  The wrapped operation is
modelled as a map from the 0-based invocation index to that invocation's
outcome: a returned value, an exception matching the configured retryable
exception tuple, or a non-matching exception. -/

/-- Outcome of one invocation of the wrapped operation: a return value, or
an exception (with a flag saying whether it matches the decorator's
`exceptions` tuple, and its message). -/
inductive PyOutcome (α : Type) where
  | ok (v : α)
  | exn (retryable : Bool) (msg : String)
deriving DecidableEq

/-- Result of running the retry wrapper: the final outcome (`.ok (some v)`
a returned value, `.ok none` the fall-through `return None` after an empty
loop, `.error (b, msg)` a propagated exception), the number of times the
wrapped operation was invoked, and the list of delays slept between
attempts, in order. -/
structure RetryResult (α : Type) where
  result : Except (Bool × String) (Option α)
  calls : Nat
  delays : List ℚ

/-- The body of `RetryWithBackoff.__call__`'s wrapper loop, starting at
attempt index `attempt` with `k` loop iterations remaining
(`k = maxAttempts - attempt`).  Mirrors `utils.py` lines 83-104: a matching
exception on the last attempt re-raises; otherwise the wrapper sleeps
`min(base_delay * backoff_factor ** attempt, max_delay)` and retries; a
non-matching exception propagates immediately. -/
def retryAux (base factor maxDelay : ℚ) (maxAttempts : Nat)
    (func : Nat → PyOutcome α) : Nat → Nat → RetryResult α
  | _, 0 => ⟨.ok none, 0, []⟩
  | attempt, k + 1 =>
    match func attempt with
    | .ok v => ⟨.ok (some v), 1, []⟩
    | .exn true msg =>
      if attempt = maxAttempts - 1 then
        ⟨.error (true, msg), 1, []⟩
      else
        let d := min (base * factor ^ attempt) maxDelay
        let r := retryAux base factor maxDelay maxAttempts func (attempt + 1) k
        ⟨r.result, r.calls + 1, d :: r.delays⟩
    | .exn false msg => ⟨.error (false, msg), 1, []⟩

/-- One call of a function wrapped by
`RetryWithBackoff(max_attempts, base_delay, backoff_factor, max_delay)`. -/
def retryCall (base factor maxDelay : ℚ) (maxAttempts : Nat)
    (func : Nat → PyOutcome α) : RetryResult α :=
  retryAux base factor maxDelay maxAttempts func 0 maxAttempts

/-! ### collectors.py — `DataCollector._validate_and_clean_trends`

A raw trend is a dictionary produced by a fetcher; the fields the cleaning
step reads are modelled with `Option` for absent/`None` keys.  The
per-item `try/except: continue` cannot fire for typed fields (e.g. `float`
conversion cannot fail on a `ℚ`), so dropping is exactly the two explicit
`continue`-equivalent checks.  `metadata` is carried opaquely; the
`collection_time` bookkeeping stamp is not modelled (no claim reads it). -/

/-- A raw trend dictionary as handed to `_validate_and_clean_trends`. -/
structure RawTrend where
  source : Option String
  topic : Option String
  content : Option String
  url : Option String
  engagement_score : Option ℚ
  metadata : List (String × String)
deriving DecidableEq

/-- A cleaned trend, as appended to `validated_trends`. -/
structure CleanTrend where
  source : String
  topic : String
  content : String
  url : String
  engagement_score : ℚ
  metadata : List (String × String)
deriving DecidableEq

/-- Python truthiness of `trend.get(key)` for a string field: the key is
present with a non-empty value. -/
def pyTruthy : Option String → Bool
  | none => false
  | some s => s ≠ ""

/-- `collectors.py` lines 855-878: one iteration of the cleaning loop.
Returns `none` when the item is skipped (`continue`). -/
def clean_trend (t : RawTrend) : Option CleanTrend :=
  if ¬ pyTruthy t.source ∨ ¬ pyTruthy t.topic then none
  else
    let source := pyStrip (t.source.getD "")
    let topic := pyTake 200 (pyStrip (t.topic.getD ""))
    let content := if pyTruthy t.content then pyTake 1000 (t.content.getD "") else ""
    let url := if pyTruthy t.url then pyTake 500 (t.url.getD "") else ""
    let engagement := max 0 (t.engagement_score.getD 0)
    if 2 ≤ topic.length then
      some ⟨source, topic, content, url, engagement, t.metadata⟩
    else none

/-- `DataCollector._validate_and_clean_trends`: keep the cleaned form of
every surviving item, in order; skipped items are dropped silently. -/
def validate_and_clean_trends (trends : List RawTrend) : List CleanTrend :=
  trends.filterMap clean_trend

/-! ### collectors.py — `DataCollector._rate_limit_check`

The rate limiter's mutable state: `last_request_times` and
`min_request_intervals` dictionaries and the per-source
`api_status[source]['error_count']`.  Dictionaries are association lists
with the defaults of the corresponding `.get` calls.  `gate` takes the
current wall-clock time `now` and returns the slept duration together with
the updated state; the post-sleep `time.time()` is `now + slept`. -/

/-- `d.get(k, default)` on a dictionary. -/
def dictGet (l : List (String × α)) (k : String) (default : α) : α :=
  match l.find? (fun p => p.1 = k) with
  | some p => p.2
  | none => default

/-- `d[k] = v` on a dictionary. -/
def dictSet (l : List (String × α)) (k : String) (v : α) : List (String × α) :=
  (k, v) :: l.filter (fun p => ¬ p.1 = k)

/-- Shared collector state read and written by `_rate_limit_check`. -/
structure RateLimiterState where
  last_request_times : List (String × ℚ)
  min_request_intervals : List (String × ℚ)
  error_counts : List (String × Nat)
deriving DecidableEq

/-- `collectors.py` lines 210-231.  Computes the sleep duration: when less
than the source's minimum interval has elapsed since the previous call,
sleep the remainder, plus `min(error_count * 0.5, 5.0)` when the source
has recent errors; otherwise do not sleep.  Then record the post-sleep
clock as the source's last request time. -/
def rate_limit_check (st : RateLimiterState) (source : String) (now : ℚ) :
    ℚ × RateLimiterState :=
  let last := dictGet st.last_request_times source 0
  let min_interval := dictGet st.min_request_intervals source 1
  let time_since_last := now - last
  let sleep_time :=
    if time_since_last < min_interval then
      let error_count := dictGet st.error_counts source 0
      if 0 < error_count then
        (min_interval - time_since_last) + min ((error_count : ℚ) * (1/2)) 5
      else
        min_interval - time_since_last
    else 0
  (sleep_time,
   { st with last_request_times :=
      dictSet st.last_request_times source (now + sleep_time) })

/-! ### database.py — `TrendDatabase`

The `trend_data` table is a list of rows; row ids come from the
AUTOINCREMENT counter `nextId` (starting at 1, so every assigned id is
positive).  Timestamps are rationals measured in hours (the dedup window
`datetime('now', '-1 day')` is `now - 24`; `get_recent_trend_data`'s
window of `hours` is `now - hours`).  `_generate_content_hash` computes
`md5(f"{source}:{topic}:{content or ''}")`; md5 is modelled by its
(deterministic) preimage string — equal triples give equal hashes exactly
as in the code, and the only abstracted collisions are md5's own. -/

/-- A row of `trend_data` (the columns the specified operations read). -/
structure TrendRecord where
  id : ℤ
  timestamp : ℚ
  source : String
  topic : String
  content : Option String
  url : Option String
  engagement_score : ℚ
  hash_value : String
deriving DecidableEq

/-- The `trend_data` table plus its AUTOINCREMENT counter. -/
structure TrendStore where
  records : List TrendRecord
  nextId : ℤ
deriving DecidableEq

/-- A freshly initialized database: no rows, next rowid 1. -/
def TrendStore.empty : TrendStore := ⟨[], 1⟩

/-- `TrendDatabase._validate_trend_input` (`database.py` lines 289-304),
with the checks in source order; `.error` is the raised `ValueError`. -/
def validate_trend_input (source topic : String) (engagement_score : ℚ) :
    Except String Unit :=
  if source = "" ∨ (pyStrip source).length = 0 then
    .error "Source cannot be empty"
  else if topic = "" ∨ (pyStrip topic).length = 0 then
    .error "Topic cannot be empty"
  else if engagement_score < 0 then
    .error "Engagement score must be non-negative"
  else if 50 < source.length then
    .error "Source too long (max 50 characters)"
  else if 200 < topic.length then
    .error "Topic too long (max 200 characters)"
  else
    .ok ()

/-- `TrendDatabase._generate_content_hash` (`database.py` lines 306-311):
the md5 preimage `f"{source}:{topic}:{content or ''}"`. -/
def generate_content_hash (source topic : String) (content : Option String) :
    String :=
  source ++ ":" ++ topic ++ ":" ++ content.getD ""

/-- The SQL query inside `_is_duplicate_trend`: is there a row with this
hash whose `timestamp` is strictly inside the trailing 24-hour window? -/
def dup_query (store : TrendStore) (now : ℚ) (content_hash : String) : Bool :=
  store.records.any (fun r =>
    r.hash_value = content_hash ∧ now - 24 < r.timestamp)

/-- `TrendDatabase._is_duplicate_trend` (`database.py` lines 313-325): the
query runs under a blanket `try/except` that returns `False` — a failed
lookup is reported as "not a duplicate", never as an error.  The lookup's
own outcome is a parameter so that a faulting read can be modelled. -/
def is_duplicate_trend (lookup : Except String Bool) : Bool :=
  match lookup with
  | .ok b => b
  | .error _ => false

/-- `TrendDatabase.insert_trend_data` (`database.py` lines 234-287),
generic over the dedup lookup's outcome (`dupLookup` receives the content
hash; the non-faulting instantiation is `insert_trend_data` below).
Validation failure raises (`.error`); a detected duplicate returns the
sentinel `-1` and stores nothing; otherwise the row is appended with a
fresh rowid and the current timestamp. -/
def insert_trend_data_gen (dupLookup : String → Except String Bool)
    (store : TrendStore) (now : ℚ) (source topic : String)
    (content url : Option String) (engagement_score : ℚ) :
    Except String (ℤ × TrendStore) :=
  match validate_trend_input source topic engagement_score with
  | .error msg => .error msg
  | .ok _ =>
    let content_hash := generate_content_hash source topic content
    if is_duplicate_trend (dupLookup content_hash) then
      .ok (-1, store)
    else
      .ok (store.nextId,
        ⟨store.records ++
          [⟨store.nextId, now, source, topic, content, url, engagement_score,
            content_hash⟩],
         store.nextId + 1⟩)

/-- `TrendDatabase.insert_trend_data` with the dedup lookup executing
normally against the store. -/
def insert_trend_data (store : TrendStore) (now : ℚ) (source topic : String)
    (content url : Option String) (engagement_score : ℚ) :
    Except String (ℤ × TrendStore) :=
  insert_trend_data_gen (fun h => .ok (dup_query store now h))
    store now source topic content url engagement_score

/-! #### `TrendDatabase.get_recent_trend_data` (`database.py` 373-440)

`ORDER BY engagement_score DESC, timestamp DESC` is modelled by sorting
with the corresponding total preorder (SQLite guarantees exactly this
lexicographic order; relative order of fully tied rows is unspecified
there and an insertion sort is one admissible realization).  The dynamic
query adds `AND source = ?` only when `if source:` — a present but empty
filter string is falsy and adds no clause — and `LIMIT ?` only when
`if limit:`, so `limit = 0` adds no clause, and SQLite treats a negative
`LIMIT` as unbounded. -/

/-- The SQL ordering: `engagement_score` descending, then `timestamp`
descending. -/
def recentOrder (a b : TrendRecord) : Prop :=
  b.engagement_score < a.engagement_score ∨
    (a.engagement_score = b.engagement_score ∧ b.timestamp ≤ a.timestamp)

instance : DecidableRel recentOrder := fun a b => by
  unfold recentOrder; infer_instance

instance : IsTotal TrendRecord recentOrder where
  total a b := by
    rcases lt_trichotomy a.engagement_score b.engagement_score with h | h | h
    · exact Or.inr (Or.inl h)
    · rcases le_total b.timestamp a.timestamp with ht | ht
      · exact Or.inl (Or.inr ⟨h, ht⟩)
      · exact Or.inr (Or.inr ⟨h.symm, ht⟩)
    · exact Or.inl (Or.inl h)

instance : IsTrans TrendRecord recentOrder where
  trans a b c hab hbc := by
    rcases hab with h1 | ⟨h1, ht1⟩ <;> rcases hbc with h2 | ⟨h2, ht2⟩
    · exact Or.inl (h2.trans h1)
    · exact Or.inl (h2 ▸ h1)
    · exact Or.inl (h1 ▸ h2)
    · exact Or.inr ⟨h1.trans h2, ht2.trans ht1⟩

/-- The `WHERE` clause: inside the trailing `hours` window, and matching
the source filter when one was (truthily) supplied. -/
def recentWhere (now : ℚ) (hours : Nat) (source : Option String)
    (r : TrendRecord) : Prop :=
  now - (hours : ℚ) ≤ r.timestamp ∧
    (∀ s, source = some s → s ≠ "" → r.source = s)

instance (now : ℚ) (hours : Nat) (source : Option String) :
    DecidablePred (recentWhere now hours source) := fun r => by
  unfold recentWhere; infer_instance

/-- The `LIMIT` clause: applied only when `if limit:` is truthy, and only
binding for a positive value (SQLite: negative limit = no bound). -/
def applyLimit (limit : Option ℤ) (rows : List TrendRecord) :
    List TrendRecord :=
  match limit with
  | none => rows
  | some n => if 1 ≤ n then rows.take n.toNat else rows

/-- `TrendDatabase.get_recent_trend_data`: filter to the window (and the
source filter when truthily given), order by engagement descending then
timestamp descending, then cap when a truthy limit was given. -/
def get_recent_trend_data (store : TrendStore) (now : ℚ) (hours : Nat)
    (source : Option String) (limit : Option ℤ) : List TrendRecord :=
  applyLimit limit
    (List.insertionSort recentOrder
      (store.records.filter (fun r => recentWhere now hours source r)))

/-! #### `TrendDatabase.cleanup_old_data` (`database.py` 513-588)

Only each row's `timestamp` takes part in cleanup, so the three logical
record sets are lists of timestamps, here measured in days.
`trend_analysis` rows are kept twice as long (`analysis_retention_days =
days * 2`).  Each set is counted first (`SELECT COUNT`) and deleted only
when the count is positive, exactly as in the code.

Transaction semantics matter here: the connection from `_get_connection`
keeps the sqlite3 driver's default `isolation_level`, under which the
first `DELETE` that executes implicitly opens a transaction (the
`SELECT COUNT` queries do not).  `cursor.execute("VACUUM")` on line 568
runs before `conn.commit()` on line 570, and SQLite refuses to VACUUM
inside an open transaction, so whenever any category actually had rows to
delete the `VACUUM` raises `sqlite3.OperationalError` and
`_get_connection`'s except clause rolls the deletions back and re-raises.
Only an invocation with nothing to delete reaches `commit` and returns —
with all counts zero. -/

/-- The three persisted record sets, as their row timestamps (days). -/
structure DbTables where
  trend_data : List ℚ
  trend_analysis : List ℚ
  published_content : List ℚ
deriving DecidableEq

/-- The per-category deletion counts returned by `cleanup_old_data`. -/
structure CleanupStats where
  trend_data_deleted : Nat
  trend_analysis_deleted : Nat
  published_content_deleted : Nat
deriving DecidableEq

/-- Count-then-delete for one table with threshold `cutoff`:
`SELECT COUNT(*) ... WHERE timestamp < cutoff`, then `DELETE` with the
same predicate when the count is positive.  A `DELETE` executed (opening
the implicit transaction) exactly when the returned count is positive. -/
def cleanupTable (cutoff : ℚ) (rows : List ℚ) : Nat × List ℚ :=
  let c := rows.countP (fun ts => ts < cutoff)
  if 0 < c then (c, rows.filter (fun ts => ¬ ts < cutoff)) else (0, rows)

/-- `TrendDatabase.cleanup_old_data`: count and conditionally delete
`trend_data` and `published_content` rows older than `days` days and
`trend_analysis` rows older than `2 * days` days, then `VACUUM`, then
commit.  If any `DELETE` executed, the implicit transaction is still open
when `VACUUM` runs, so the call raises (`.error`, SQLite's
"cannot VACUUM from within a transaction") and the rollback in
`_get_connection` restores the tables; otherwise the all-zero counts are
returned with the tables unchanged. -/
def cleanup_old_data (db : DbTables) (now : ℚ) (days : Nat) :
    Except String (CleanupStats × DbTables) :=
  let (c1, td) := cleanupTable (now - (days : ℚ)) db.trend_data
  let (c2, ta) := cleanupTable (now - ((days : ℚ) * 2)) db.trend_analysis
  let (c3, pc) := cleanupTable (now - (days : ℚ)) db.published_content
  if 0 < c1 ∨ 0 < c2 ∨ 0 < c3 then
    .error "cannot VACUUM from within a transaction"
  else
    .ok (⟨c1, c2, c3⟩, ⟨td, ta, pc⟩)

/-! ### main.py — `TrendBot._store_trends_batch` (lines 244-278)

Each batch item's `insert_trend_data` call either returns a rowid (or the
duplicate sentinel `-1`) or raises; the loop counts successes, counts
failures, and breaks as soon as `failed_count > len(trends_data) * 0.5`
(the float product is exact for these magnitudes, modelled in `ℚ`). -/

/-- One batch item's storage outcome: the value returned by
`insert_trend_data`, or the exception it raised. -/
abbrev StoreOutcome : Type := Except String ℤ

instance exceptDecEq {ε α : Type} [DecidableEq ε] [DecidableEq α] :
    DecidableEq (Except ε α)
  | .ok a, .ok b =>
    if h : a = b then .isTrue (by rw [h]) else .isFalse (by simp [h])
  | .ok _, .error _ => .isFalse (by simp)
  | .error _, .ok _ => .isFalse (by simp)
  | .error e, .error f =>
    if h : e = f then .isTrue (by rw [h]) else .isFalse (by simp [h])

/-- The batch loop over the remaining items, carrying `stored_count` and
`failed_count`; `n` is the full batch length used by the abort check.
Returns the final `(stored_count, failed_count)`. -/
def store_batch_aux (n : Nat) : List StoreOutcome → Nat → Nat → Nat × Nat
  | [], stored, failed => (stored, failed)
  | item :: rest, stored, failed =>
    match item with
    | .ok _ => store_batch_aux n rest (stored + 1) failed
    | .error _ =>
      if (n : ℚ) * (1/2) < ((failed + 1 : Nat) : ℚ) then
        (stored, failed + 1)
      else
        store_batch_aux n rest stored (failed + 1)

/-- `TrendBot._store_trends_batch`: run the loop and return
`stored_count`. -/
def store_trends_batch (items : List StoreOutcome) : Nat :=
  (store_batch_aux items.length items 0 0).1

/-! ## Theorems -/

/-- The `i`-th delay slept by the retry loop, counting from attempt index
`attempt`, is `min(base_delay * backoff_factor ** (attempt + i),
max_delay)` — the exponent is the 0-based index of the failed attempt. -/
theorem retryAux_delays_getD {α : Type} (base factor maxDelay : ℚ)
    (maxAttempts : Nat) (func : Nat → PyOutcome α) :
    ∀ (k attempt i : Nat),
      i < (retryAux base factor maxDelay maxAttempts func attempt k).delays.length →
      (retryAux base factor maxDelay maxAttempts func attempt k).delays.getD i 0 =
        min (base * factor ^ (attempt + i)) maxDelay := by
  intro k
  induction k with
  | zero => intro attempt i h; simp [retryAux] at h
  | succ k ih =>
    intro attempt i h
    rw [retryAux] at h ⊢
    match hf : func attempt with
    | .ok v => rw [hf] at h; simp at h
    | .exn false msg => rw [hf] at h; simp at h
    | .exn true msg =>
      rw [hf] at h
      dsimp only at h ⊢
      by_cases hlast : attempt = maxAttempts - 1
      · simp [hlast] at h
      · simp only [hlast, if_false] at h ⊢
        match i with
        | 0 => simp
        | i + 1 =>
          simp only [List.length_cons, Nat.add_lt_add_iff_right] at h
          simp only [List.getD_cons_succ]
          rw [ih (attempt + 1) i h]
          ring_nf

/-- Claim C4, counterexample: with `base_delay = 1`, `backoff_factor = 2`,
`max_delay = 60`, `max_attempts = 3` and an always-failing retryable
operation, the delay slept after the 1st failure (k = 1) is `1`, whereas
the claimed formula `min(base_delay * backoff_factor ^ k, max_delay)`
gives `2`: the claim fails at k = 1. -/
theorem C4_counterexample :
    (retryCall (α := Unit) 1 2 60 3 (fun _ => .exn true "db locked")).delays.getD 0 0 = 1 ∧
    min ((1 : ℚ) * 2 ^ 1) 60 = 2 ∧ (1 : ℚ) ≠ 2 := by
  refine ⟨by norm_num [retryCall, retryAux], by norm_num, by norm_num⟩

/-- Claim C4 (amended): for the retry wrapper with parameters
max_attempts, base_delay, backoff_factor, max_delay, for every k ≥ 1 the
delay slept before attempt k's retry (after the k-th failure) equals
`min(base_delay * backoff_factor ^ (k - 1), max_delay)` — the exponent is
`k - 1`, not `k`. -/
theorem C4_retry_delay_formula {α : Type} (base factor maxDelay : ℚ)
    (maxAttempts : Nat) (func : Nat → PyOutcome α) (k : Nat) (_hk : 1 ≤ k)
    (h : k - 1 < (retryCall base factor maxDelay maxAttempts func).delays.length) :
    (retryCall base factor maxDelay maxAttempts func).delays.getD (k - 1) 0 =
      min (base * factor ^ (k - 1)) maxDelay := by
  have := retryAux_delays_getD base factor maxDelay maxAttempts func
    maxAttempts 0 (k - 1) h
  simpa [retryCall] using this

/-- Witness for C4: the amended formula evaluated at the concrete
counterexample configuration, k = 1. -/
theorem C4_retry_delay_formula_witness :
    (1 ≤ 1 ∧
      1 - 1 < (retryCall (α := Unit) 1 2 60 3 (fun _ => .exn true "db locked")).delays.length) ∧
    (retryCall (α := Unit) 1 2 60 3 (fun _ => .exn true "db locked")).delays.getD (1 - 1) 0 =
      min ((1 : ℚ) * 2 ^ (1 - 1)) 60 :=
  ⟨⟨by decide, by decide⟩,
    C4_retry_delay_formula 1 2 60 3 (fun _ => .exn true "db locked") 1
      (by decide) (by decide)⟩

/-- Claim C7: wrapped with `max_attempts = 3`: an operation that fails
retryably twice then succeeds returns the success value after exactly 3
invocations; one that always fails retryably propagates the final failure
after exactly 3 invocations; a non-retryable failure propagates
immediately after 1 invocation. -/
theorem C7_retry_attempt_counts {α : Type} (base factor maxDelay : ℚ)
    (func : Nat → PyOutcome α) (v : α) (m1 m2 m3 : String) :
    (func 0 = .exn true m1 → func 1 = .exn true m2 → func 2 = .ok v →
      (retryCall base factor maxDelay 3 func).result = .ok (some v) ∧
      (retryCall base factor maxDelay 3 func).calls = 3) ∧
    (func 0 = .exn true m1 → func 1 = .exn true m2 → func 2 = .exn true m3 →
      (retryCall base factor maxDelay 3 func).result = .error (true, m3) ∧
      (retryCall base factor maxDelay 3 func).calls = 3) ∧
    (func 0 = .exn false m1 →
      (retryCall base factor maxDelay 3 func).result = .error (false, m1) ∧
      (retryCall base factor maxDelay 3 func).calls = 1) := by
  refine ⟨fun h0 h1 h2 => ?_, fun h0 h1 h2 => ?_, fun h0 => ?_⟩
  · simp [retryCall, retryAux, h0, h1, h2]
  · simp [retryCall, retryAux, h0, h1, h2]
  · simp [retryCall, retryAux, h0]

/-- Witness for C7: the three cases evaluated at concrete operations. -/
theorem C7_retry_attempt_counts_witness :
    ((fun i => if i = 0 then PyOutcome.exn true "t1"
               else if i = 1 then PyOutcome.exn true "t2"
               else PyOutcome.ok 7) 0 = PyOutcome.exn true "t1" ∧
     (retryCall 1 2 60 3 (fun i => if i = 0 then PyOutcome.exn true "t1"
               else if i = 1 then PyOutcome.exn true "t2"
               else PyOutcome.ok 7)).result = .ok (some 7)) ∧
    ((retryCall (α := Nat) 1 2 60 3 (fun _ => PyOutcome.exn true "t3")).result =
        .error (true, "t3") ∧
     (retryCall (α := Nat) 1 2 60 3 (fun _ => PyOutcome.exn true "t3")).calls = 3) ∧
    ((retryCall (α := Nat) 1 2 60 3 (fun _ => PyOutcome.exn false "h1")).result =
        .error (false, "h1") ∧
     (retryCall (α := Nat) 1 2 60 3 (fun _ => PyOutcome.exn false "h1")).calls = 1) :=
  ⟨⟨by decide,
    ((C7_retry_attempt_counts 1 2 60 (fun i => if i = 0 then PyOutcome.exn true "t1"
        else if i = 1 then PyOutcome.exn true "t2" else PyOutcome.ok 7)
        7 "t1" "t2" "t3").1 (by decide) (by decide) (by decide)).1⟩,
   ⟨((C7_retry_attempt_counts 1 2 60 (fun _ => PyOutcome.exn true "t3")
        7 "t3" "t3" "t3").2.1 (by decide) (by decide) (by decide)).1,
    ((C7_retry_attempt_counts 1 2 60 (fun _ => PyOutcome.exn true "t3")
        7 "t3" "t3" "t3").2.1 (by decide) (by decide) (by decide)).2⟩,
   ⟨((C7_retry_attempt_counts 1 2 60 (fun _ => PyOutcome.exn false "h1")
        7 "h1" "h1" "h1").2.2 (by decide)).1,
    ((C7_retry_attempt_counts 1 2 60 (fun _ => PyOutcome.exn false "h1")
        7 "h1" "h1" "h1").2.2 (by decide)).2⟩⟩

/-- A batch item that raised. -/
def isStoreError : StoreOutcome → Bool
  | .error _ => true
  | .ok _ => false

/-- A batch item that was stored (returned a rowid or the duplicate
sentinel). -/
def isStoreOk : StoreOutcome → Bool
  | .ok _ => true
  | .error _ => false

/-- The abort test `failed_count > len(trends_data) * 0.5`, in naturals. -/
theorem batch_half_lt_iff (n m : Nat) :
    (n : ℚ) * (1 / 2) < (m : ℚ) ↔ n < 2 * m := by
  have h2 : ((2 * m : Nat) : ℚ) = 2 * (m : ℚ) := by push_cast; ring
  constructor
  · intro h
    rw [← Nat.cast_lt (α := ℚ), h2]
    linarith
  · intro h
    have := (Nat.cast_lt (α := ℚ)).mpr h
    rw [h2] at this
    linarith

/-- While the failures in the remaining items keep the running failure
count at or below half the batch, the loop attempts every remaining item
and tallies every success and failure. -/
theorem store_batch_aux_no_abort (n : Nat) :
    ∀ (rest : List StoreOutcome) (s f : Nat),
      2 * (f + rest.countP isStoreError) ≤ n →
      store_batch_aux n rest s f =
        (s + rest.countP isStoreOk, f + rest.countP isStoreError) := by
  intro rest
  induction rest with
  | nil => intro s f _; simp [store_batch_aux]
  | cons x xs ih =>
    intro s f h
    match x with
    | .ok v =>
      have hce : List.countP isStoreError (Except.ok v :: xs) =
          List.countP isStoreError xs := by simp [List.countP_cons, isStoreError]
      have hco : List.countP isStoreOk (Except.ok v :: xs) =
          List.countP isStoreOk xs + 1 := by simp [List.countP_cons, isStoreOk]
      rw [hce] at h
      rw [store_batch_aux, ih (s + 1) f (by omega), hco, hce]
      simp only [Prod.mk.injEq, and_true, true_and]
      omega
    | .error e =>
      have hce : List.countP isStoreError (Except.error e :: xs) =
          List.countP isStoreError xs + 1 := by simp [List.countP_cons, isStoreError]
      have hco : List.countP isStoreOk (Except.error e :: xs) =
          List.countP isStoreOk xs := by simp [List.countP_cons, isStoreOk]
      rw [hce] at h
      have hnb : ¬ ((n : ℚ) * (1 / 2) < ((f + 1 : Nat) : ℚ)) := by
        rw [batch_half_lt_iff]
        omega
      rw [store_batch_aux, if_neg hnb, ih s (f + 1) (by omega), hco, hce]
      simp only [Prod.mk.injEq, and_true, true_and]
      omega

/-- When the items before a failing item keep the failure count at or
below half the batch but that failure pushes it over, the loop stops at
that item: the items after it are never examined and the result is the
tally so far. -/
theorem store_batch_aux_abort (n : Nat) :
    ∀ (pre : List StoreOutcome) (e : String) (post : List StoreOutcome)
      (s f : Nat),
      2 * (f + pre.countP isStoreError) ≤ n →
      n < 2 * (f + pre.countP isStoreError + 1) →
      store_batch_aux n (pre ++ .error e :: post) s f =
        (s + pre.countP isStoreOk, f + pre.countP isStoreError + 1) := by
  intro pre
  induction pre with
  | nil =>
    intro e post s f hle hgt
    simp only [List.countP_nil, Nat.add_zero] at *
    rw [List.nil_append, store_batch_aux]
    have hb : (n : ℚ) * (1 / 2) < ((f + 1 : Nat) : ℚ) := by
      rw [batch_half_lt_iff]
      omega
    rw [if_pos hb]
  | cons x xs ih =>
    intro e post s f hle hgt
    match x with
    | .ok v =>
      have hce : List.countP isStoreError (Except.ok v :: xs) =
          List.countP isStoreError xs := by simp [List.countP_cons, isStoreError]
      have hco : List.countP isStoreOk (Except.ok v :: xs) =
          List.countP isStoreOk xs + 1 := by simp [List.countP_cons, isStoreOk]
      rw [hce] at hle hgt
      rw [List.cons_append, store_batch_aux,
        ih e post (s + 1) f (by omega) (by omega), hco, hce]
      simp only [Prod.mk.injEq, and_true, true_and]
      omega
    | .error e' =>
      have hce : List.countP isStoreError (Except.error e' :: xs) =
          List.countP isStoreError xs + 1 := by simp [List.countP_cons, isStoreError]
      have hco : List.countP isStoreOk (Except.error e' :: xs) =
          List.countP isStoreOk xs := by simp [List.countP_cons, isStoreOk]
      rw [hce] at hle hgt
      have hnb : ¬ ((n : ℚ) * (1 / 2) < ((f + 1 : Nat) : ℚ)) := by
        rw [batch_half_lt_iff]
        omega
      rw [List.cons_append, store_batch_aux, if_neg hnb,
        ih e post s (f + 1) (by omega) (by omega), hco, hce]
      simp only [Prod.mk.injEq, and_true, true_and]
      omega

/-- Claim C9: in the orchestrator's batch-insert loop, individual storage
failures do not abort the loop while the cumulative failure count stays at
or below half the batch size — every item is attempted and the number of
successfully stored items is returned; and as soon as the failure count
exceeds half the batch size, the loop stops at that failure, the items
after it are never attempted (the result is independent of them), and the
count of items stored so far is returned. -/
theorem C9_store_batch_failure_tolerance (items : List StoreOutcome) :
    (2 * items.countP isStoreError ≤ items.length →
      store_trends_batch items = items.countP isStoreOk) ∧
    (∀ pre e post, items = pre ++ .error e :: post →
      2 * pre.countP isStoreError ≤ items.length →
      items.length < 2 * (pre.countP isStoreError + 1) →
      store_trends_batch items = pre.countP isStoreOk) := by
  constructor
  · intro h
    unfold store_trends_batch
    rw [store_batch_aux_no_abort items.length items 0 0 (by omega)]
    simp
  · intro pre e post hitems hle hgt
    subst hitems
    unfold store_trends_batch
    rw [store_batch_aux_abort (pre ++ Except.error e :: post).length pre e post
      0 0 (by omega) (by omega)]
    simp

/-- Witness for C9: a 3-item batch with one failure runs to completion and
returns 2 stored; a 3-item batch whose second failure exceeds half the
batch stops there and returns 0 stored. -/
theorem C9_store_batch_failure_tolerance_witness :
    (2 * ([Except.ok 5, Except.error "disk", Except.ok 7] :
        List StoreOutcome).countP isStoreError ≤ 3 ∧
      store_trends_batch [Except.ok 5, Except.error "disk", Except.ok 7] = 2) ∧
    (store_trends_batch [Except.error "a", Except.error "b", Except.ok 9] = 0) :=
  ⟨⟨by decide,
    (C9_store_batch_failure_tolerance
        [Except.ok 5, Except.error "disk", Except.ok 7]).1 (by decide)⟩,
   (C9_store_batch_failure_tolerance
        [Except.error "a", Except.error "b", Except.ok 9]).2
      [Except.error "a"] "b" [Except.ok 9] (by decide) (by decide) (by decide)⟩

/-- Claim C5, counterexample: with `min_interval = 1` and `error_count = 3`
for source "x", a gate call arriving 2 seconds after the previous one
sleeps nothing — no adaptive delay is added — so the gap between the two
calls is 2 seconds, which does not exceed the base interval by the claimed
1.5 seconds (1 + 1.5 = 2.5 > 2). -/
theorem C5_counterexample :
    (rate_limit_check ⟨[("x", 0)], [("x", 1)], [("x", 3)]⟩ "x" 2).1 = 0 ∧
    (2 : ℚ) + (rate_limit_check ⟨[("x", 0)], [("x", 1)], [("x", 3)]⟩ "x" 2).1 - 0 <
      1 + (3 : ℚ) * (1 / 2) := by
  constructor
  · norm_num [rate_limit_check, dictGet]
  · norm_num [rate_limit_check, dictGet]

/-- Claim C5 (amended): `gate(source)` always leaves at least
`min_interval[source]` between the previous recorded call time and the
newly recorded one, and the adaptive extra delay `min(error_count * 0.5,
5.0)` is added only when the call arrives before the interval has elapsed;
in that case the new gap is exactly `min_interval + min(error_count * 0.5,
5.0)` (so with `error_count = 3` it exceeds the base interval by 1.5
seconds).  When the interval has already elapsed no adaptive delay is
added. -/
theorem C5_rate_limit_gate (st : RateLimiterState) (source : String) (now : ℚ) :
    (dictGet st.last_request_times source 0 +
        dictGet st.min_request_intervals source 1 ≤
      now + (rate_limit_check st source now).1 ∧
     dictGet (rate_limit_check st source now).2.last_request_times source 0 =
      now + (rate_limit_check st source now).1) ∧
    (now - dictGet st.last_request_times source 0 <
        dictGet st.min_request_intervals source 1 →
      0 < dictGet st.error_counts source 0 →
      now + (rate_limit_check st source now).1 =
        dictGet st.last_request_times source 0 +
          dictGet st.min_request_intervals source 1 +
          min (((dictGet st.error_counts source 0 : Nat) : ℚ) * (1 / 2)) 5) := by
  set last := dictGet st.last_request_times source 0 with hlast
  set m := dictGet st.min_request_intervals source 1 with hm
  set ec := dictGet st.error_counts source 0 with hec
  refine ⟨⟨?_, ?_⟩, ?_⟩
  · rw [rate_limit_check]
    dsimp only
    rw [← hlast, ← hm, ← hec]
    by_cases h : now - last < m
    · rw [if_pos h]
      by_cases he : 0 < ec
      · rw [if_pos he]
        have : (0 : ℚ) ≤ min ((ec : ℚ) * (1 / 2)) 5 := by positivity
        linarith
      · rw [if_neg he]
        linarith
    · rw [if_neg h]
      linarith
  · rw [rate_limit_check]
    dsimp only
    simp [dictGet, dictSet]
  · intro h he
    rw [rate_limit_check]
    dsimp only
    rw [← hlast, ← hm, ← hec, if_pos h, if_pos he]
    ring

/-- Witness for C5: source "x" with interval 1 and 3 recent errors, called
again half a second after the previous call: the gate sleeps to exactly
1 + 1.5 seconds after the previous call. -/
theorem C5_rate_limit_gate_witness :
    ((0 : ℚ) + 1 ≤
        1 / 2 + (rate_limit_check ⟨[("x", 0)], [("x", 1)], [("x", 3)]⟩ "x" (1 / 2)).1) ∧
    (1 / 2 + (rate_limit_check ⟨[("x", 0)], [("x", 1)], [("x", 3)]⟩ "x" (1 / 2)).1 =
      (0 : ℚ) + 1 + min ((3 : ℚ) * (1 / 2)) 5) :=
  ⟨(C5_rate_limit_gate ⟨[("x", 0)], [("x", 1)], [("x", 3)]⟩ "x" (1 / 2)).1.1,
   (C5_rate_limit_gate ⟨[("x", 0)], [("x", 1)], [("x", 3)]⟩ "x" (1 / 2)).2
     (by norm_num [dictGet]) (by norm_num [dictGet])⟩

/-- Truncation bounds the character count. -/
theorem pyTake_length_le (n : Nat) (s : String) : (pyTake n s).length ≤ n := by
  have h : (pyTake n s).length = (s.data.take n).length := rfl
  rw [h, List.length_take]
  omega

/-- A run of `n` spaces. -/
def spacesN (n : Nat) : String := String.mk (List.replicate n ' ')

/-- A raw topic of 201 characters whose trimmed form is 201 characters
long but whose first 200 characters end in a run of whitespace. -/
def c2Topic : String := "a" ++ spacesN 199 ++ "b"

/-- A raw trend with a whitespace-only (but truthy) source and the padded
topic above. -/
def c2Raw : RawTrend := ⟨some "  ", some c2Topic, none, none, some 0, []⟩

set_option maxRecDepth 8192 in
/-- Claim C2, counterexample: the raw trend `c2Raw` survives
validate-and-clean, yet its cleaned source is empty after trimming (the
code only checks truthiness before stripping) and its cleaned topic has
trimmed length 1 (stripping happens before the 200-character truncation,
which here cuts down to `"a"` plus 199 trailing spaces): the surviving
record violates both "source non-empty after trimming" and "topic length
in [2,200] after trimming". -/
theorem C2_counterexample :
    (validate_and_clean_trends [c2Raw]).map
        (fun t => (pyStrip t.source, (pyStrip t.topic).length)) = [("", 1)] := by
  decide

/-- Claim C2 (amended): every record surviving validate-and-clean has a
cleaned topic of length in [2,200] (counting whitespace that truncation
can leave at its end), a non-negative engagement score (negative inputs
clamped to 0), content of at most 1000 characters and url of at most 500;
the source was truthy (present, non-empty) before cleaning but may be
whitespace-only, hence empty after trimming.  Failing records are dropped
from the output, never raised. -/
theorem C2_clean_survivor_bounds (trends : List RawTrend) (t : CleanTrend)
    (ht : t ∈ validate_and_clean_trends trends) :
    2 ≤ t.topic.length ∧ t.topic.length ≤ 200 ∧ 0 ≤ t.engagement_score ∧
    t.content.length ≤ 1000 ∧ t.url.length ≤ 500 := by
  unfold validate_and_clean_trends at ht
  rw [List.mem_filterMap] at ht
  obtain ⟨raw, _, hclean⟩ := ht
  unfold clean_trend at hclean
  by_cases h1 : ¬ pyTruthy raw.source ∨ ¬ pyTruthy raw.topic
  · rw [if_pos h1] at hclean
    cases hclean
  · rw [if_neg h1] at hclean
    dsimp only at hclean
    by_cases h2 : 2 ≤ (pyTake 200 (pyStrip (raw.topic.getD ""))).length
    · rw [if_pos h2] at hclean
      injection hclean with h3
      subst h3
      refine ⟨h2, pyTake_length_le 200 _, le_max_left 0 _, ?_, ?_⟩
      · dsimp only
        split
        · exact pyTake_length_le 1000 _
        · decide
      · dsimp only
        split
        · exact pyTake_length_le 500 _
        · decide
    · rw [if_neg h2] at hclean
      cases hclean

/-- Witness for C2: a well-formed raw trend with a negative engagement
score survives with the score clamped to 0 and all bounds holding. -/
theorem C2_clean_survivor_bounds_witness :
    (⟨"test", "Valid", "c", "u", 0, []⟩ : CleanTrend) ∈
      validate_and_clean_trends
        [⟨some "test", some "Valid", some "c", some "u", some (-10), []⟩] ∧
    (2 ≤ ("Valid" : String).length ∧ ("Valid" : String).length ≤ 200 ∧
      (0 : ℚ) ≤ 0 ∧ ("c" : String).length ≤ 1000 ∧
      ("u" : String).length ≤ 500) :=
  ⟨by decide,
   C2_clean_survivor_bounds
     [⟨some "test", some "Valid", some "c", some "u", some (-10), []⟩]
     ⟨"test", "Valid", "c", "u", 0, []⟩ (by decide)⟩

/-- A 51-character source. -/
def c3LongSource : String := String.mk (List.replicate 51 'a')

/-- A topic whose trimmed length is 2 but whose raw length is 201. -/
def c3PaddedTopic : String := "ab" ++ spacesN 199

set_option maxRecDepth 8192 in
/-- Claim C3, counterexample: the store's input validation accepts a topic
of trimmed length 1 (the claimed invariant requires length ≥ 2), rejects a
51-character source (the claimed invariant only requires non-empty), and
rejects a topic of raw length 201 whose trimmed length is 2 (inside the
claimed [2,200]): "rejected iff the trend fails the §3 invariant" fails in
both directions. -/
theorem C3_counterexample :
    (validate_trend_input "s" "a" 0 = .ok () ∧ (pyStrip "a").length = 1) ∧
    (validate_trend_input c3LongSource "ab" 0 =
        .error "Source too long (max 50 characters)" ∧
      (pyStrip c3LongSource).length = 51 ∧ (pyStrip "ab").length = 2) ∧
    (validate_trend_input "s" c3PaddedTopic 0 =
        .error "Topic too long (max 200 characters)" ∧
      (pyStrip c3PaddedTopic).length = 2) := by
  decide

/-- The validation raises exactly on: source empty after trimming, topic
empty after trimming, negative engagement, source longer than 50, or topic
longer than 200 (both untrimmed). -/
theorem validate_error_iff (source topic : String) (eng : ℚ) :
    (∃ msg, validate_trend_input source topic eng = .error msg) ↔
    ((pyStrip source).length = 0 ∨ (pyStrip topic).length = 0 ∨ eng < 0 ∨
      50 < source.length ∨ 200 < topic.length) := by
  have hes : pyStrip "" = "" := rfl
  unfold validate_trend_input
  split_ifs with h1 h2 h3 h4 h5
  · constructor
    · intro _
      rcases h1 with h | h
      · subst h
        left
        rw [hes]
        rfl
      · exact Or.inl h
    · intro _
      exact ⟨"Source cannot be empty", rfl⟩
  · constructor
    · intro _
      rcases h2 with h | h
      · subst h
        right
        left
        rw [hes]
        rfl
      · exact Or.inr (Or.inl h)
    · intro _
      exact ⟨"Topic cannot be empty", rfl⟩
  · constructor
    · intro _
      exact Or.inr (Or.inr (Or.inl h3))
    · intro _
      exact ⟨"Engagement score must be non-negative", rfl⟩
  · constructor
    · intro _
      exact Or.inr (Or.inr (Or.inr (Or.inl h4)))
    · intro _
      exact ⟨"Source too long (max 50 characters)", rfl⟩
  · constructor
    · intro _
      exact Or.inr (Or.inr (Or.inr (Or.inr h5)))
    · intro _
      exact ⟨"Topic too long (max 200 characters)", rfl⟩
  · constructor
    · rintro ⟨msg, hmsg⟩
      cases hmsg
    · intro hdisj
      exfalso
      rcases hdisj with h | h | h | h | h
      · exact h1 (Or.inr h)
      · exact h2 (Or.inr h)
      · exact h3 h
      · exact h4 h
      · exact h5 h

/-- Claim C3 (amended): `insert_trend_data` rejects (raises the
invalid-argument `ValueError`, storing nothing) iff the source is empty
after trimming, or the topic is empty after trimming, or the engagement
score is negative, or the source exceeds 50 characters, or the topic
exceeds 200 characters (both length caps on the untrimmed strings) — a
strictly different condition from the §3 invariant. -/
theorem C3_insert_rejected_iff (store : TrendStore) (now : ℚ)
    (source topic : String) (content url : Option String) (eng : ℚ) :
    (∃ msg, insert_trend_data store now source topic content url eng =
      .error msg) ↔
    ((pyStrip source).length = 0 ∨ (pyStrip topic).length = 0 ∨ eng < 0 ∨
      50 < source.length ∨ 200 < topic.length) := by
  rw [← validate_error_iff source topic eng]
  unfold insert_trend_data insert_trend_data_gen
  cases hv : validate_trend_input source topic eng with
  | error m =>
    simp only [hv]
    constructor
    · intro _
      exact ⟨m, rfl⟩
    · intro _
      exact ⟨m, rfl⟩
  | ok u =>
    cases u
    simp only [hv]
    constructor
    · rintro ⟨msg, hmsg⟩
      dsimp only at hmsg
      split at hmsg <;> cases hmsg
    · rintro ⟨msg, hmsg⟩
      cases hmsg

/-- Claim C1: starting from an empty store, inserting a (valid)
`(source, topic, content)` at time `t0` stores it under rowid 1 (a
positive id); inserting the identical triple at `t1` within 24 hours of
`t0` yields the duplicate sentinel `-1` and leaves the store unchanged;
inserting it again at `t2`, at least 24 hours after `t0`, stores a new
row (again with a positive id).  The duplicate decision compares
`generate_content_hash source topic content`, a deterministic function of
the triple. -/
theorem C1_insert_dedup_window (source topic : String)
    (content url : Option String) (eng t0 t1 t2 : ℚ)
    (hv : validate_trend_input source topic eng = .ok ())
    (h01 : t1 - t0 < 24) (h02 : 24 ≤ t2 - t0) :
    ∃ s1 id2 s2,
      insert_trend_data TrendStore.empty t0 source topic content url eng =
        .ok (1, s1) ∧
      (0 : ℤ) < 1 ∧
      insert_trend_data s1 t1 source topic content url eng = .ok (-1, s1) ∧
      insert_trend_data s1 t2 source topic content url eng = .ok (id2, s2) ∧
      0 < id2 := by
  refine ⟨⟨[⟨1, t0, source, topic, content, url, eng,
      generate_content_hash source topic content⟩], 2⟩, 2,
    ⟨[⟨1, t0, source, topic, content, url, eng,
        generate_content_hash source topic content⟩,
      ⟨2, t2, source, topic, content, url, eng,
        generate_content_hash source topic content⟩], 3⟩,
    ?_, by norm_num, ?_, ?_, by norm_num⟩
  · unfold insert_trend_data insert_trend_data_gen
    rw [hv]
    simp [is_duplicate_trend, dup_query, TrendStore.empty]
  · unfold insert_trend_data insert_trend_data_gen
    rw [hv]
    have hd : dup_query ⟨[⟨1, t0, source, topic, content, url, eng,
        generate_content_hash source topic content⟩], 2⟩ t1
        (generate_content_hash source topic content) = true := by
      simp only [dup_query, List.any_cons, List.any_nil, Bool.or_false,
        decide_eq_true_eq]
      exact ⟨trivial, by linarith⟩
    simp [is_duplicate_trend, hd]
  · unfold insert_trend_data insert_trend_data_gen
    rw [hv]
    have hd : dup_query ⟨[⟨1, t0, source, topic, content, url, eng,
        generate_content_hash source topic content⟩], 2⟩ t2
        (generate_content_hash source topic content) = false := by
      simp only [dup_query, List.any_cons, List.any_nil, Bool.or_false,
        decide_eq_false_iff_not]
      rintro ⟨-, hlt⟩
      linarith
    simp [is_duplicate_trend, hd]

/-- Witness for C1: the triple `("s", "ab", none)` inserted at times 0, 1
and 24 (hours). -/
theorem C1_insert_dedup_window_witness :
    validate_trend_input "s" "ab" 0 = .ok () ∧
    ((1 : ℚ) - 0 < 24) ∧ ((24 : ℚ) ≤ 24 - 0) ∧
    (∃ s1 id2 s2,
      insert_trend_data TrendStore.empty 0 "s" "ab" none none 0 = .ok (1, s1) ∧
      (0 : ℤ) < 1 ∧
      insert_trend_data s1 1 "s" "ab" none none 0 = .ok (-1, s1) ∧
      insert_trend_data s1 24 "s" "ab" none none 0 = .ok (id2, s2) ∧
      0 < id2) :=
  ⟨by decide, by norm_num, by norm_num,
   C1_insert_dedup_window "s" "ab" none none 0 0 1 24 (by decide)
     (by norm_num) (by norm_num)⟩

/-- Claim C10: the duplicate check fails open.  If the dedup lookup itself
errors, `_is_duplicate_trend` reports "not a duplicate" (never an error),
and the insert proceeds to append a brand-new row — for any store,
including one already holding a same-hash record inside the 24-hour
window. -/
theorem C10_dup_check_fails_open (store : TrendStore) (now : ℚ)
    (source topic : String) (content url : Option String) (eng : ℚ)
    (emsg : String)
    (hv : validate_trend_input source topic eng = .ok ()) :
    is_duplicate_trend (.error emsg) = false ∧
    insert_trend_data_gen (fun _ => .error emsg) store now source topic
        content url eng =
      .ok (store.nextId,
        ⟨store.records ++
          [⟨store.nextId, now, source, topic, content, url, eng,
            generate_content_hash source topic content⟩],
         store.nextId + 1⟩) := by
  refine ⟨rfl, ?_⟩
  unfold insert_trend_data_gen
  rw [hv]
  simp [is_duplicate_trend]

/-- Witness for C10: a store already holding the hash of
`("s", "ab", none)` inside the window still gains a second same-hash row
when the dedup lookup faults. -/
theorem C10_dup_check_fails_open_witness :
    validate_trend_input "s" "ab" 0 = .ok () ∧
    dup_query ⟨[⟨1, 0, "s", "ab", none, none, 0,
        generate_content_hash "s" "ab" none⟩], 2⟩ 1
      (generate_content_hash "s" "ab" none) = true ∧
    insert_trend_data_gen (fun _ => .error "database is locked")
        ⟨[⟨1, 0, "s", "ab", none, none, 0,
          generate_content_hash "s" "ab" none⟩], 2⟩ 1 "s" "ab" none none 0 =
      .ok (2,
        ⟨[⟨1, 0, "s", "ab", none, none, 0,
            generate_content_hash "s" "ab" none⟩,
          ⟨2, 1, "s", "ab", none, none, 0,
            generate_content_hash "s" "ab" none⟩], 3⟩) :=
  ⟨by decide,
   by
    simp only [dup_query, List.any_cons, List.any_nil, Bool.or_false,
      decide_eq_true_eq]
    exact ⟨trivial, by norm_num⟩,
   (C10_dup_check_fails_open
      ⟨[⟨1, 0, "s", "ab", none, none, 0,
        generate_content_hash "s" "ab" none⟩], 2⟩ 1 "s" "ab" none none 0
      "database is locked" (by decide)).2⟩

/-- Claim C6 (code bug): mirroring the repository's own
`test_cleanup_old_data` — one `trend_data` row 31 days old, `days = 30` —
the row is older than the retention threshold, so the claim (and the
test's `trend_data_deleted == 1` assertion) expects a successful return
counting and removing it; instead the `DELETE` opens the implicit
transaction and the pre-commit `VACUUM` raises
`sqlite3.OperationalError`, rolling the deletion back.  An invocation
succeeds only when there was nothing to delete, and then every count is
zero. -/
theorem C6_cleanup_vacuum_bug :
    ([(-31 : ℚ)].countP (fun ts => ts < (0 : ℚ) - (30 : Nat)) = 1) ∧
    cleanup_old_data ⟨[(-31 : ℚ)], [], []⟩ 0 30 =
      .error "cannot VACUUM from within a transaction" ∧
    cleanup_old_data ⟨[], [], []⟩ 0 30 = .ok (⟨0, 0, 0⟩, ⟨[], [], []⟩) := by
  refine ⟨?_, ?_, ?_⟩
  · norm_num [List.countP_cons]
  · unfold cleanup_old_data cleanupTable
    dsimp only
    norm_num [List.countP_cons]
  · unfold cleanup_old_data cleanupTable
    dsimp only
    simp

/-! #### Claim C8 helper lemmas -/

/-- Whatever the `LIMIT` clause does, it returns a sublist of its input. -/
theorem applyLimit_sublist (limit : Option ℤ) (rows : List TrendRecord) :
    (applyLimit limit rows).Sublist rows := by
  unfold applyLimit
  cases limit with
  | none => exact List.Sublist.refl _
  | some n =>
    dsimp only
    by_cases h : 1 ≤ n
    · rw [if_pos h]
      exact List.take_sublist _ _
    · rw [if_neg h]

/-- Claim C8, counterexample: a stored record with source "twitter"
returned by `recent` called with the (falsy) source filter `""` and the
(falsy) limit `0`: the output keeps a record that does not match the given
filter and has length 1 > 0, violating "matching the source filter when
given" and "length at most the limit when given". -/
theorem C8_counterexample :
    get_recent_trend_data ⟨[⟨1, 0, "twitter", "ab", none, none, 1, "h1"⟩], 2⟩
        0 24 (some "") (some 0) =
      [⟨1, 0, "twitter", "ab", none, none, 1, "h1"⟩] ∧
    (⟨1, 0, "twitter", "ab", none, none, 1, "h1"⟩ : TrendRecord).source ≠ "" ∧
    1 ≤ (get_recent_trend_data ⟨[⟨1, 0, "twitter", "ab", none, none, 1, "h1"⟩], 2⟩
        0 24 (some "") (some 0)).length := by
  have h : get_recent_trend_data ⟨[⟨1, 0, "twitter", "ab", none, none, 1, "h1"⟩], 2⟩
      0 24 (some "") (some 0) =
      [⟨1, 0, "twitter", "ab", none, none, 1, "h1"⟩] := by
    unfold get_recent_trend_data applyLimit
    norm_num [recentWhere, List.filter, List.insertionSort]
  refine ⟨h, by decide, ?_⟩
  rw [h]
  decide

/-- Claim C8 (amended): the `recent` query returns only stored records
inside the trailing window, matching the source filter when a non-empty
filter string is given; its length is at most the limit when a positive
limit is given (a limit of 0 is dropped by Python truthiness and a
negative limit is unbounded in SQLite, so neither caps the output); and it
is ordered by engagement score descending with ties broken by timestamp
descending — in particular engagement scores are non-increasing along the
output. -/
theorem C8_recent_query (store : TrendStore) (now : ℚ) (hours : Nat)
    (source : Option String) (limit : Option ℤ) :
    (∀ r ∈ get_recent_trend_data store now hours source limit,
      r ∈ store.records ∧ now - (hours : ℚ) ≤ r.timestamp ∧
        ∀ s, source = some s → s ≠ "" → r.source = s) ∧
    (∀ n, limit = some n → 1 ≤ n →
      (get_recent_trend_data store now hours source limit).length ≤ n.toNat) ∧
    List.Pairwise recentOrder
      (get_recent_trend_data store now hours source limit) ∧
    List.Pairwise (fun a b => b.engagement_score ≤ a.engagement_score)
      (get_recent_trend_data store now hours source limit) := by
  have hpair : List.Pairwise recentOrder
      (get_recent_trend_data store now hours source limit) := by
    unfold get_recent_trend_data
    exact List.Pairwise.sublist (applyLimit_sublist _ _)
      (List.sorted_insertionSort recentOrder _)
  refine ⟨?_, ?_, hpair, ?_⟩
  · intro r hr
    unfold get_recent_trend_data at hr
    have hr2 := (applyLimit_sublist limit _).subset hr
    have hr3 := (List.perm_insertionSort recentOrder _).mem_iff.mp hr2
    rw [List.mem_filter] at hr3
    obtain ⟨hmem, hwhere⟩ := hr3
    rw [decide_eq_true_eq] at hwhere
    exact ⟨hmem, hwhere.1, hwhere.2⟩
  · intro n hn h1
    subst hn
    unfold get_recent_trend_data applyLimit
    dsimp only
    rw [if_pos h1]
    exact List.length_take_le _ _
  · exact hpair.imp (fun hab => by
      rcases hab with h | ⟨he, -⟩
      · exact le_of_lt h
      · exact le_of_eq he.symm)

/-- Witness for C8: a two-record store queried with `limit = 1` returns
only the higher-engagement record, which lies in the window; the length
bound and the membership facts are the theorem applied at this input. -/
theorem C8_recent_query_witness :
    ((⟨2, 1, "github", "ml", none, none, 200, "h2"⟩ : TrendRecord) ∈
      get_recent_trend_data
        ⟨[⟨1, 0, "twitter", "ai", none, none, 50, "h1"⟩,
          ⟨2, 1, "github", "ml", none, none, 200, "h2"⟩], 3⟩ 1 24 none
        (some 1) →
      (⟨2, 1, "github", "ml", none, none, 200, "h2"⟩ : TrendRecord) ∈
        ([⟨1, 0, "twitter", "ai", none, none, 50, "h1"⟩,
          ⟨2, 1, "github", "ml", none, none, 200, "h2"⟩] :
            List TrendRecord) ∧
      (1 : ℚ) - (24 : Nat) ≤ 1 ∧
      (∀ s, (none : Option String) = some s → s ≠ "" →
        ("github" : String) = s)) ∧
    (get_recent_trend_data
        ⟨[⟨1, 0, "twitter", "ai", none, none, 50, "h1"⟩,
          ⟨2, 1, "github", "ml", none, none, 200, "h2"⟩], 3⟩ 1 24 none
        (some 1)).length ≤ (1 : ℤ).toNat :=
  ⟨fun hm =>
    (C8_recent_query
      ⟨[⟨1, 0, "twitter", "ai", none, none, 50, "h1"⟩,
        ⟨2, 1, "github", "ml", none, none, 200, "h2"⟩], 3⟩ 1 24 none
      (some 1)).1 _ hm,
   (C8_recent_query
      ⟨[⟨1, 0, "twitter", "ai", none, none, 50, "h1"⟩,
        ⟨2, 1, "github", "ml", none, none, 200, "h2"⟩], 3⟩ 1 24 none
      (some 1)).2.1 1 rfl (by norm_num)⟩

end TrendBot
